import Mathlib

/-!
Verification of the live-streaming core of the adk-python repository:
the live request queue (`live_request_queue.py`), the audio cache manager
(`audio_cache_manager.py`) and the control-event flush policy
(`live_flow_config.py`).

The Python code is shallowly embedded: pure computations become Lean
functions, mutation of the invocation context becomes explicit state
passing, Python `bytes` become `List Nat`, Python `float` timestamps
become `Rat` (all arithmetic performed on them is `* 1000` and `int(...)`
truncation, on which rationals and IEEE doubles agree at the values used),
and raised-then-caught exceptions of the injected artifact/session
services become explicit outcome parameters.  The artifact service and
session service are external collaborators (spec §6); they are modelled
as an append-only list of saved artifacts and an append-only session
event log.
-/

namespace Adk

/-- Python `bytes`: a sequence of byte values. -/
abbrev Bytes := List Nat

/-- `google.genai.types.Blob`: raw media data plus a mime type. -/
structure Blob where
  data : Bytes
  mime_type : String
deriving DecidableEq

/-- `google.genai.types.FileData`: a file reference carried in a part. -/
structure FileData where
  file_uri : String
  mime_type : String
deriving DecidableEq

/-- `google.genai.types.Part`: the two payload shapes the flush path builds. -/
inductive Part where
  | inline_data (blob : Blob)
  | file_data (fd : FileData)
deriving DecidableEq

/-- `google.genai.types.Content`: role plus ordered parts. -/
structure Content where
  role : String
  parts : List Part
deriving DecidableEq

/-- Python truthiness of an `Optional[list]`: `None` and `[]` are falsy. -/
def pyTruthy {α : Type} : Option (List α) → Bool
  | Option.none => false
  | Option.some l => !l.isEmpty

/-- Python `int(q)` for nonnegative-or-negative rationals: truncation toward zero. -/
def pyInt (q : Rat) : Int := q.num.tdiv (q.den : Int)

/-- Python `s.split(sep)` for a one-character separator, over the
character list of `s`; splitting never yields an empty list. -/
def splitOnChar (sep : Char) : List Char → List (List Char)
  | [] => [[]]
  | x :: xs =>
      let r := splitOnChar sep xs
      if x = sep then [] :: r
      else
        match r with
        | [] => [[x]]
        | h :: t => (x :: h) :: t

/-- Python `s.split(sep)[-1]`: last component of the split (the source
always splits on the single character `'/'`). -/
def pySplitLast (s : String) (sep : Char) : String :=
  ((splitOnChar sep s.data).getLastD []).asString

/-- Python `sum` contribution of one bool (`True` counts as 1). -/
def b2n (b : Bool) : Nat := if b then 1 else 0

/-- `ControlEventConfig.__init__` fields: per-event-kind
(flush_user_audio, flush_model_audio) pairs. -/
structure ControlEventConfig where
  flush_on_interrupted : Bool × Bool
  flush_on_turn_complete : Bool × Bool
  flush_on_generation_complete : Bool × Bool
deriving DecidableEq

/-- The default `ControlEventConfig()` constructor arguments. -/
def defaultControlEventConfig : ControlEventConfig :=
  { flush_on_interrupted := (false, true)
    flush_on_turn_complete := (true, true)
    flush_on_generation_complete := (false, true) }

/-- `ControlEventConfig.get_flush_settings`: builds a dict keyed by the three
event-kind strings and returns `config_map.get(event_type, (False, False))`.
`event_type` is `Option String` so that the Python `None` argument is
representable; `None` is not a key of the dict, so it takes the default. -/
def ControlEventConfig.get_flush_settings (c : ControlEventConfig)
    (event_type : Option String) : Bool × Bool :=
  let config_map : List (String × (Bool × Bool)) :=
    [("interrupted", c.flush_on_interrupted),
     ("turn_complete", c.flush_on_turn_complete),
     ("generation_complete", c.flush_on_generation_complete)]
  match event_type with
  | Option.none => (false, false)
  | Option.some k => (config_map.lookup k).getD (false, false)

/-- The keyword arguments handed to the `LiveRequest(...)` constructor
before validation runs (pydantic applies the documented defaults:
`content=None`, `blob=None`, flags `False`). -/
structure LiveRequestInput where
  content : Option Content
  blob : Option Blob
  activity_start : Bool
  activity_end : Bool
  close : Bool
deriving DecidableEq

/-- A validated `LiveRequest` envelope. -/
structure LiveRequest where
  content : Option Content
  blob : Option Blob
  activity_start : Bool
  activity_end : Bool
  close : Bool
deriving DecidableEq

/-- `bool(info.data.get('content')) or bool(info.data.get('blob'))`:
a pydantic model object is always truthy, `None` is falsy. -/
def hasContentOrBlob (inp : LiveRequestInput) : Bool :=
  inp.content.isSome || inp.blob.isSome

/-- The `validate_single_signal` field validator run for `activity_start`.
Pydantic validates fields in declaration order, so at this point
`info.data` holds only `content` and `blob`; the three flag lookups
`info.data.get(..., False)` all yield `False` and `signal_count` is
`v` alone.  Returns `true` when the validator does not raise. -/
def validate_activity_start (inp : LiveRequestInput) : Bool :=
  if inp.activity_start then
    let signal_count := b2n false + b2n false + b2n false + b2n inp.activity_start
    if hasContentOrBlob inp then false
    else if signal_count > 1 then false
    else true
  else true

/-- The `validate_single_signal` validator run for `activity_end`.
`info.data` now also holds `activity_start` when its own validation
passed (a field that raised is absent from `info.data`, so the
`.get(..., False)` default applies). -/
def validate_activity_end (inp : LiveRequestInput) : Bool :=
  if inp.activity_end then
    let a_s := inp.activity_start && validate_activity_start inp
    let signal_count := b2n a_s + b2n false + b2n false + b2n inp.activity_end
    if hasContentOrBlob inp then false
    else if signal_count > 1 then false
    else true
  else true

/-- The `validate_single_signal` validator run for `close`.  `close` is not
an activity signal, so the content/blob exclusivity branch is skipped and
only the `signal_count > 1` check can raise. -/
def validate_close (inp : LiveRequestInput) : Bool :=
  if inp.close then
    let a_s := inp.activity_start && validate_activity_start inp
    let a_e := inp.activity_end && validate_activity_end inp
    let signal_count := b2n a_s + b2n a_e + b2n false + b2n inp.close
    if signal_count > 1 then false
    else true
  else true

/-- `LiveRequest(...)` construction: pydantic runs all field validators and
the model is produced only when none of them raised. -/
def LiveRequest.construct (inp : LiveRequestInput) : Except String LiveRequest :=
  if validate_activity_start inp && validate_activity_end inp && validate_close inp then
    Except.ok { content := inp.content, blob := inp.blob,
                activity_start := inp.activity_start,
                activity_end := inp.activity_end, close := inp.close }
  else
    Except.error "validation error"

/-- Whether a construction attempt produced an envelope. -/
def constructOk (inp : LiveRequestInput) : Bool :=
  match LiveRequest.construct inp with
  | Except.ok _ => true
  | Except.error _ => false

/-- The state of an `asyncio.Queue`: the pending items in FIFO order
(`put_nowait` appends at the back, `get` takes from the front).  The
queue is unbounded, so `put_nowait` always succeeds. -/
abbrev LiveRequestQueue := List LiveRequest

/-- `asyncio.Queue.put_nowait`: enqueue at the back, never blocking. -/
def put_nowait (q : LiveRequestQueue) (r : LiveRequest) : LiveRequestQueue :=
  q ++ [r]

/-- `asyncio.Queue.get` as a step: the front item when one is pending,
`none` when the queue is empty (in the running system the consumer task
suspends in that case and resumes on the next `put_nowait`). -/
def queue_get (q : LiveRequestQueue) : Option (LiveRequest × LiveRequestQueue) :=
  match q with
  | [] => Option.none
  | r :: rest => Option.some (r, rest)

/-- The envelope enqueued by `LiveRequestQueue.close()`. -/
def closeRequest : LiveRequest :=
  { content := Option.none, blob := Option.none, activity_start := false,
    activity_end := false, close := true }

/-- The envelope enqueued by `LiveRequestQueue.send_content(content)`. -/
def contentRequest (c : Content) : LiveRequest :=
  { content := Option.some c, blob := Option.none, activity_start := false,
    activity_end := false, close := false }

/-- The envelope enqueued by `LiveRequestQueue.send_realtime(blob)`. -/
def realtimeRequest (b : Blob) : LiveRequest :=
  { content := Option.none, blob := Option.some b, activity_start := false,
    activity_end := false, close := false }

/-- The envelope enqueued by `LiveRequestQueue.send_activity_start()`. -/
def activityStartRequest : LiveRequest :=
  { content := Option.none, blob := Option.none, activity_start := true,
    activity_end := false, close := false }

/-- The envelope enqueued by `LiveRequestQueue.send_activity_end()`. -/
def activityEndRequest : LiveRequest :=
  { content := Option.none, blob := Option.none, activity_start := false,
    activity_end := true, close := false }

/-- The producer-side operations of `LiveRequestQueue`. -/
inductive QueueOp where
  | send_content (c : Content)
  | send_realtime (b : Blob)
  | send_activity_start
  | send_activity_end
  | send (r : LiveRequest)
  | close
deriving DecidableEq

/-- The envelope a producer operation constructs and enqueues. -/
def opEnvelope : QueueOp → LiveRequest
  | QueueOp.send_content c => contentRequest c
  | QueueOp.send_realtime b => realtimeRequest b
  | QueueOp.send_activity_start => activityStartRequest
  | QueueOp.send_activity_end => activityEndRequest
  | QueueOp.send r => r
  | QueueOp.close => closeRequest

/-- Effect of a producer operation on the queue: each `send_*` method
constructs its envelope via the validated `LiveRequest(...)` constructor
and calls `put_nowait`. -/
def applyOp (q : LiveRequestQueue) (op : QueueOp) : LiveRequestQueue :=
  put_nowait q (opEnvelope op)

/-- A step of the whole producer/consumer system: either some producer
method runs, or the consumer runs one `get()`. -/
inductive TraceOp where
  | enq (op : QueueOp)
  | get
deriving DecidableEq

/-- Observable state of a queue run: the pending items and the sequence of
envelopes the consumer's completed `get()` calls have returned, in order. -/
structure QState where
  queue : LiveRequestQueue
  got : List LiveRequest
deriving DecidableEq

/-- One step of a trace.  A `get` on an empty queue leaves the state
unchanged: the consumer suspends and returns nothing yet. -/
def stepTrace (s : QState) : TraceOp → QState
  | TraceOp.enq op => { s with queue := applyOp s.queue op }
  | TraceOp.get =>
      match queue_get s.queue with
      | Option.none => s
      | Option.some (r, rest) => { queue := rest, got := s.got ++ [r] }

/-- Run a trace from the freshly constructed queue (empty, nothing consumed). -/
def runTrace (ops : List TraceOp) : QState :=
  ops.foldl stepTrace { queue := [], got := [] }

/-- The envelopes a trace enqueues, in enqueue order. -/
def enqueuedOf : List TraceOp → List LiveRequest
  | [] => []
  | TraceOp.enq op :: t => opEnvelope op :: enqueuedOf t
  | TraceOp.get :: t => enqueuedOf t

/-- `AudioCacheEntry` (from invocation_context.py): a timestamped raw audio
chunk tagged with the producing role. -/
structure AudioCacheEntry where
  role : String
  data : Blob
  timestamp : Rat
deriving DecidableEq

/-- `Event` (events/event.py), restricted to the fields the flush path
populates.  `Event.new_id()` draws a fresh random id and carries no
information, so it is not modelled. -/
structure Event where
  invocation_id : String
  author : String
  content : Content
  timestamp : Rat
deriving DecidableEq

/-- A session: its id and the event log the session service appends to
(spec §6: `append_event` is an ordering-preserving append). -/
structure Session where
  id : String
  events : List Event
deriving DecidableEq

/-- One successful `artifact_service.save_artifact(...)` call, as recorded
by the artifact blob store (spec §6: content-addressable-by-name store). -/
structure SavedArtifact where
  app_name : String
  user_id : String
  session_id : String
  filename : String
  artifact : Part
deriving DecidableEq

/-- The slice of `InvocationContext` the audio cache manager touches.
`input_audio_cache` / `output_audio_cache` are `Optional[list]` in Python
(absent until first append), hence `Option (List _)`.
`artifact_service` records whether an artifact service is configured. -/
structure InvocationContext where
  app_name : String
  user_id : String
  invocation_id : String
  session : Session
  input_audio_cache : Option (List AudioCacheEntry)
  output_audio_cache : Option (List AudioCacheEntry)
  artifact_service : Bool
deriving DecidableEq

/-- `AudioCacheManager.cache_input_audio`: lazily initialize the backing
list when falsy (`None` or `[]`), then append a `role='user'` entry with
`timestamp = time.time()` (the wall clock is passed in as `now`). -/
def cache_input_audio (ctx : InvocationContext) (audio_blob : Blob)
    (now : Rat) : InvocationContext :=
  let cache := if pyTruthy ctx.input_audio_cache then ctx.input_audio_cache.getD []
               else []
  let audio_entry : AudioCacheEntry :=
    { role := "user", data := audio_blob, timestamp := now }
  { ctx with input_audio_cache := Option.some (cache ++ [audio_entry]) }

/-- `AudioCacheManager.cache_output_audio`: as above with `role='model'`
on the output cache. -/
def cache_output_audio (ctx : InvocationContext) (audio_blob : Blob)
    (now : Rat) : InvocationContext :=
  let cache := if pyTruthy ctx.output_audio_cache then ctx.output_audio_cache.getD []
               else []
  let audio_entry : AudioCacheEntry :=
    { role := "model", data := audio_blob, timestamp := now }
  { ctx with output_audio_cache := Option.some (cache ++ [audio_entry]) }

/-- Outcome of the awaited external-service calls one `_flush_cache_to_services`
invocation makes: whether `save_artifact` raises (and the revision id it
returns when it does not) and whether `append_event` raises.  The Python
`try`/`except Exception` catches either failure. -/
structure ServiceOutcome where
  save_revision : Option String
  append_raises : Bool
deriving DecidableEq

/-- The dummy entry backing the `audio_cache[0]` subscripts; never used,
since the guard returns early on an empty cache. -/
def defaultEntry : AudioCacheEntry :=
  { role := "user", data := { data := [], mime_type := "audio/pcm" },
    timestamp := 0 }

/-- `AudioCacheManager._flush_cache_to_services`.  Returns the updated
context (session event log), the updated artifact store, and the Python
return value: `True` on a fully successful flush, `False` when skipped
(no artifact service or empty cache) or when a service call raised (the
`except Exception` branch). -/
def _flush_cache_to_services (ctx : InvocationContext)
    (arts : List SavedArtifact) (outcome : ServiceOutcome)
    (audio_cache : List AudioCacheEntry) (cache_type : String) :
    (InvocationContext × List SavedArtifact) × Bool :=
  if !ctx.artifact_service || audio_cache.isEmpty then
    ((ctx, arts), false)
  else
    let first := audio_cache.headD defaultEntry
    let mime_type := if audio_cache.isEmpty then "audio/pcm"
                     else first.data.mime_type
    let combined_audio_data : Bytes := (audio_cache.map (fun e => e.data.data)).flatten
    let timestamp : Int := pyInt (first.timestamp * 1000)
    let filename := cache_type ++ "_" ++ toString timestamp ++ "."
                      ++ pySplitLast mime_type '/'
    let combined_audio_part : Part :=
      Part.inline_data { data := combined_audio_data, mime_type := mime_type }
    match outcome.save_revision with
    | Option.none => ((ctx, arts), false)
    | Option.some revision_id =>
        let arts1 := arts ++ [{ app_name := ctx.app_name, user_id := ctx.user_id,
                                session_id := ctx.session.id, filename := filename,
                                artifact := combined_audio_part }]
        let artifact_ref := "artifact://" ++ ctx.app_name ++ "/" ++ ctx.user_id
                              ++ "/" ++ ctx.session.id ++ "/" ++ filename
                              ++ "#" ++ revision_id
        let audio_event : Event :=
          { invocation_id := ctx.invocation_id
            author := first.role
            content := { role := first.role
                         parts := [Part.file_data { file_uri := artifact_ref,
                                                    mime_type := mime_type }] }
            timestamp := first.timestamp }
        if outcome.append_raises then
          ((ctx, arts1), false)
        else
          (({ ctx with
                session := { ctx.session with
                               events := ctx.session.events ++ [audio_event] } },
            arts1), true)

/-- Service outcomes for the at most two `_flush_cache_to_services`
invocations one `flush_caches` call makes (input side first). -/
structure FlushBehavior where
  input_outcome : ServiceOutcome
  output_outcome : ServiceOutcome
deriving DecidableEq

/-- The Python return value of `flush_caches`: the function is annotated
`-> None` and has no return statement, so every call returns `None`.
`per_side` is the shape the spec sentence under review describes. -/
inductive PyFlushReturn where
  | pyNone
  | per_side (user_success model_success : Bool)
deriving DecidableEq

/-- First block of `flush_caches`: `if flush_user_audio and
invocation_context.input_audio_cache:` run the helper on the input cache
and clear it to `[]` when the helper reported success. -/
def flushInputSide (beh : FlushBehavior) (ctx : InvocationContext)
    (arts : List SavedArtifact) (flush_user_audio : Bool) :
    InvocationContext × List SavedArtifact :=
  if flush_user_audio && pyTruthy ctx.input_audio_cache then
    let r := _flush_cache_to_services ctx arts beh.input_outcome
               (ctx.input_audio_cache.getD []) "input_audio"
    if r.2 then ({ r.1.1 with input_audio_cache := Option.some [] }, r.1.2)
    else r.1
  else (ctx, arts)

/-- Second block of `flush_caches`: the same for the output (model) cache,
running on the state the first block produced. -/
def flushOutputSide (beh : FlushBehavior)
    (s : InvocationContext × List SavedArtifact) (flush_model_audio : Bool) :
    InvocationContext × List SavedArtifact :=
  if flush_model_audio && pyTruthy s.1.output_audio_cache then
    let r := _flush_cache_to_services s.1 s.2 beh.output_outcome
               (s.1.output_audio_cache.getD []) "output_audio"
    if r.2 then ({ r.1.1 with output_audio_cache := Option.some [] }, r.1.2)
    else r.1
  else s

/-- `AudioCacheManager.flush_caches`: the input (user) side block runs
first, then the output (model) side block on the resulting state.  The
function body ends without a `return` and is annotated `-> None`, so the
call returns `None`. -/
def flush_caches (beh : FlushBehavior) (ctx : InvocationContext)
    (arts : List SavedArtifact)
    (flush_user_audio flush_model_audio : Bool) :
    (InvocationContext × List SavedArtifact) × PyFlushReturn :=
  (flushOutputSide beh (flushInputSide beh ctx arts flush_user_audio)
     flush_model_audio,
   PyFlushReturn.pyNone)

/-- The concrete user-audio chunk of the spec's scenario:
`b'\x00\xFF\x01\x02\x03\x04\x05\x06'`, mime `audio/pcm`,
timestamp `1234567890.0`. -/
def sampleEntry : AudioCacheEntry :=
  { role := "user",
    data := { data := [0, 255, 1, 2, 3, 4, 5, 6], mime_type := "audio/pcm" },
    timestamp := 1234567890 }

/-- A concrete invocation context holding exactly the sample chunk in the
input audio cache, with an artifact service configured. -/
def sampleCtx : InvocationContext :=
  { app_name := "test_app", user_id := "test_user", invocation_id := "inv1",
    session := { id := "test_session", events := [] },
    input_audio_cache := Option.some [sampleEntry],
    output_audio_cache := Option.none,
    artifact_service := true }

/-- Service behavior where both save and append succeed. -/
def sampleBeh : FlushBehavior :=
  { input_outcome := { save_revision := Option.some "rev1", append_raises := false },
    output_outcome := { save_revision := Option.some "rev2", append_raises := false } }

/-- A concrete cached model-audio chunk. -/
def sampleModelEntry : AudioCacheEntry :=
  { role := "model",
    data := { data := [9, 8], mime_type := "audio/pcm" },
    timestamp := 1234567891 }

/-- A concrete invocation context with both caches non-empty. -/
def sampleCtxBoth : InvocationContext :=
  { app_name := "test_app", user_id := "test_user", invocation_id := "inv1",
    session := { id := "test_session", events := [] },
    input_audio_cache := Option.some [sampleEntry],
    output_audio_cache := Option.some [sampleModelEntry],
    artifact_service := true }

/-- C2: `ControlEventConfig.get_flush_settings` is total (it is a Lean
function into `Bool × Bool`, mirroring the exception-free `dict.get` in
the source): for the default configuration it returns `(False, True)` for
`'interrupted'`, `(True, True)` for `'turn_complete'`, `(False, True)` for
`'generation_complete'`, and `(False, False)` for `None`, the empty string
and every other string. -/
theorem get_flush_settings_total :
    defaultControlEventConfig.get_flush_settings (Option.some "interrupted") = (false, true)
    ∧ defaultControlEventConfig.get_flush_settings (Option.some "turn_complete") = (true, true)
    ∧ defaultControlEventConfig.get_flush_settings (Option.some "generation_complete") = (false, true)
    ∧ defaultControlEventConfig.get_flush_settings Option.none = (false, false)
    ∧ defaultControlEventConfig.get_flush_settings (Option.some "") = (false, false)
    ∧ ∀ s : String, s ≠ "interrupted" → s ≠ "turn_complete" →
        s ≠ "generation_complete" →
        defaultControlEventConfig.get_flush_settings (Option.some s) = (false, false) := by
  refine ⟨rfl, rfl, rfl, rfl, rfl, ?_⟩
  intro s h1 h2 h3
  simp only [ControlEventConfig.get_flush_settings, List.lookup]
  have e1 : (s == "interrupted") = false := by simp [h1]
  have e2 : (s == "turn_complete") = false := by simp [h2]
  have e3 : (s == "generation_complete") = false := by simp [h3]
  simp [e1, e2, e3]

/-- Witness for C2 at the concrete unknown key `"unknown_event"`. -/
theorem get_flush_settings_total_witness :
    defaultControlEventConfig.get_flush_settings (Option.some "unknown_event")
      = (false, false) :=
  get_flush_settings_total.2.2.2.2.2 "unknown_event"
    (by decide) (by decide) (by decide)

/-- C4: constructing a `LiveRequest` with any two of
{activity_start, activity_end, close} true, or with an activity flag true
together with a present content or blob, fails validation; no such
envelope is produced. -/
theorem liveRequest_exclusivity (inp : LiveRequestInput)
    (h : ((inp.activity_start && inp.activity_end)
          || (inp.activity_start && inp.close)
          || (inp.activity_end && inp.close)) = true
       ∨ ((inp.activity_start || inp.activity_end)
          && (inp.content.isSome || inp.blob.isSome)) = true) :
    constructOk inp = false := by
  rcases inp with ⟨c, b, as, ae, cl⟩
  cases as <;> cases ae <;> cases cl <;> cases c <;> cases b <;>
    simp_all [constructOk, LiveRequest.construct, validate_activity_start,
      validate_activity_end, validate_close, hasContentOrBlob, b2n]

/-- Witness for C4: activity_start together with close fails validation. -/
theorem liveRequest_exclusivity_witness :
    constructOk { content := Option.none, blob := Option.none,
                  activity_start := true, activity_end := false,
                  close := true } = false :=
  liveRequest_exclusivity _ (Or.inl (by decide))

/-- C10: `close=True` combined with a content or blob payload (activity
flags false) passes validation and the resulting envelope carries both the
close flag and the payload — the mutual-exclusivity validator does not
reject close together with content/blob. -/
theorem close_with_payload_allowed (c : Option Content) (b : Option Blob) :
    LiveRequest.construct
      { content := c, blob := b, activity_start := false,
        activity_end := false, close := true }
    = Except.ok { content := c, blob := b, activity_start := false,
                  activity_end := false, close := true } := rfl

/-- The canonical producer envelopes all pass the pydantic validation (so
`send_content`, `send_realtime`, `send_activity_start`, `send_activity_end`
and `close` construct their envelopes without a validation error). -/
theorem producer_envelopes_valid (c : Content) (b : Blob) :
    LiveRequest.construct
        { content := Option.none, blob := Option.none, activity_start := false,
          activity_end := false, close := true } = Except.ok closeRequest
    ∧ LiveRequest.construct
        { content := Option.some c, blob := Option.none, activity_start := false,
          activity_end := false, close := false } = Except.ok (contentRequest c)
    ∧ LiveRequest.construct
        { content := Option.none, blob := Option.some b, activity_start := false,
          activity_end := false, close := false } = Except.ok (realtimeRequest b)
    ∧ LiveRequest.construct
        { content := Option.none, blob := Option.none, activity_start := true,
          activity_end := false, close := false } = Except.ok activityStartRequest
    ∧ LiveRequest.construct
        { content := Option.none, blob := Option.none, activity_start := false,
          activity_end := true, close := false } = Except.ok activityEndRequest :=
  ⟨rfl, rfl, rfl, rfl, rfl⟩

/-- Invariant of one step: completed gets followed by pending items always
equal the enqueue order. -/
theorem stepTrace_preserves (s : QState) (op : TraceOp) :
    (stepTrace s op).got ++ (stepTrace s op).queue
      = s.got ++ s.queue ++ enqueuedOf [op] := by
  cases op with
  | enq o =>
      simp [stepTrace, applyOp, put_nowait, enqueuedOf]
  | get =>
      cases h : s.queue with
      | nil => simp [stepTrace, queue_get, h, enqueuedOf]
      | cons r rest => simp [stepTrace, queue_get, h, enqueuedOf]

/-- Folding a trace from any state keeps the got/pending decomposition. -/
theorem foldTrace_decomposition (ops : List TraceOp) :
    ∀ s : QState,
      (ops.foldl stepTrace s).got ++ (ops.foldl stepTrace s).queue
        = s.got ++ s.queue ++ enqueuedOf ops := by
  induction ops with
  | nil => intro s; simp [enqueuedOf]
  | cons op t ih =>
      intro s
      have hstep := stepTrace_preserves s op
      calc (List.foldl stepTrace s (op :: t)).got
              ++ (List.foldl stepTrace s (op :: t)).queue
          = (t.foldl stepTrace (stepTrace s op)).got
              ++ (t.foldl stepTrace (stepTrace s op)).queue := by
            simp [List.foldl]
        _ = (stepTrace s op).got ++ (stepTrace s op).queue ++ enqueuedOf t :=
            ih (stepTrace s op)
        _ = s.got ++ s.queue ++ enqueuedOf [op] ++ enqueuedOf t := by
            rw [hstep]
        _ = s.got ++ s.queue ++ enqueuedOf (op :: t) := by
            cases op <;> simp [enqueuedOf]

/-- C5: FIFO — for every interleaving of producer operations
(`send_content`, `send_realtime`, `send_activity_start`,
`send_activity_end`, `send`, `close`) with consumer `get()` steps, the
envelopes returned by the completed `get()` calls are exactly a prefix of
the enqueued envelopes in enqueue order, and together with the still
pending items they are exactly the enqueued envelopes in enqueue order.
(`put_nowait` on the unbounded queue never blocks; a `get` on an empty
queue returns nothing yet, modelling the consumer's suspension.) -/
theorem queue_fifo (ops : List TraceOp) :
    (runTrace ops).got ++ (runTrace ops).queue = enqueuedOf ops
    ∧ (runTrace ops).got
        = (enqueuedOf ops).take (runTrace ops).got.length := by
  have h := foldTrace_decomposition ops { queue := [], got := [] }
  have hmain : (runTrace ops).got ++ (runTrace ops).queue = enqueuedOf ops := by
    simpa [runTrace] using h
  refine ⟨hmain, ?_⟩
  have := congrArg (List.take (runTrace ops).got.length) hmain
  simpa [List.take_append] using this

/-- `_flush_cache_to_services` never touches the input audio cache field
(only session events and the artifact store change). -/
theorem flushToServices_input_cache (ctx : InvocationContext)
    (arts : List SavedArtifact) (o : ServiceOutcome)
    (cache : List AudioCacheEntry) (ct : String) :
    ((_flush_cache_to_services ctx arts o cache ct).1.1).input_audio_cache
      = ctx.input_audio_cache := by
  unfold _flush_cache_to_services
  split
  · rfl
  · cases h : o.save_revision with
    | none => simp [h]
    | some rev => simp only [h]; split <;> rfl

/-- `_flush_cache_to_services` never touches the output audio cache field. -/
theorem flushToServices_output_cache (ctx : InvocationContext)
    (arts : List SavedArtifact) (o : ServiceOutcome)
    (cache : List AudioCacheEntry) (ct : String) :
    ((_flush_cache_to_services ctx arts o cache ct).1.1).output_audio_cache
      = ctx.output_audio_cache := by
  unfold _flush_cache_to_services
  split
  · rfl
  · cases h : o.save_revision with
    | none => simp [h]
    | some rev => simp only [h]; split <;> rfl

/-- `_flush_cache_to_services` preserves every non-session field of the
context (it only ever appends a session event). -/
theorem flushToServices_ctx_fields (ctx : InvocationContext)
    (arts : List SavedArtifact) (o : ServiceOutcome)
    (cache : List AudioCacheEntry) (ct : String) :
    ((_flush_cache_to_services ctx arts o cache ct).1.1).artifact_service
        = ctx.artifact_service
    ∧ ((_flush_cache_to_services ctx arts o cache ct).1.1).app_name
        = ctx.app_name := by
  unfold _flush_cache_to_services
  split
  · exact ⟨rfl, rfl⟩
  · cases h : o.save_revision with
    | none => simp [h]
    | some rev => simp only [h]; split <;> exact ⟨rfl, rfl⟩

/-- The Python return value of `_flush_cache_to_services`: `True` exactly
when an artifact service is configured, the cache is non-empty, the
artifact save returned a revision, and the session append did not raise. -/
theorem flushToServices_success_iff (ctx : InvocationContext)
    (arts : List SavedArtifact) (o : ServiceOutcome)
    (cache : List AudioCacheEntry) (ct : String) :
    (_flush_cache_to_services ctx arts o cache ct).2
      = (ctx.artifact_service && !cache.isEmpty
          && o.save_revision.isSome && !o.append_raises) := by
  unfold _flush_cache_to_services
  split
  · rename_i hguard
    rw [Bool.or_eq_true] at hguard
    rcases hguard with h | h
    · simp [Bool.not_eq_true'] at h
      simp [h]
    · simp [h]
  · rename_i hguard
    rw [Bool.or_eq_true, not_or] at hguard
    obtain ⟨h1, h2⟩ := hguard
    simp [Bool.not_eq_true] at h1 h2
    cases h : o.save_revision with
    | none => simp [h, h1, h2]
    | some rev => simp only [h]; split <;> rename_i h3 <;> simp [h1, h2, h3, Option.isSome]

/-- The skip branch of the helper: with no artifact service configured or
an empty cache, nothing happens and `False` is returned. -/
theorem flushToServices_skip (ctx : InvocationContext)
    (arts : List SavedArtifact) (o : ServiceOutcome)
    (cache : List AudioCacheEntry) (ct : String)
    (h : ctx.artifact_service = false ∨ cache.isEmpty = true) :
    _flush_cache_to_services ctx arts o cache ct = ((ctx, arts), false) := by
  unfold _flush_cache_to_services
  rcases h with h | h <;> simp [h]

/-- The input-side block only ever rewrites `input_audio_cache` (to `[]`,
when the helper succeeded) and the session/artifact state. -/
theorem flushInputSide_input_cache (beh : FlushBehavior)
    (ctx : InvocationContext) (arts : List SavedArtifact) (fu : Bool) :
    ((flushInputSide beh ctx arts fu).1).input_audio_cache
      = (if fu && pyTruthy ctx.input_audio_cache
            && (_flush_cache_to_services ctx arts beh.input_outcome
                  (ctx.input_audio_cache.getD []) "input_audio").2
         then Option.some [] else ctx.input_audio_cache) := by
  unfold flushInputSide
  by_cases h1 : (fu && pyTruthy ctx.input_audio_cache) = true
  · simp only [h1, if_true, Bool.true_and]
    by_cases h2 : (_flush_cache_to_services ctx arts beh.input_outcome
        (ctx.input_audio_cache.getD []) "input_audio").2 = true
    · simp [h2]
    · simp only [Bool.not_eq_true] at h2
      simp [h2, flushToServices_input_cache]
  · simp only [Bool.not_eq_true] at h1
    simp [h1]

/-- The input-side block never touches the output cache. -/
theorem flushInputSide_output_cache (beh : FlushBehavior)
    (ctx : InvocationContext) (arts : List SavedArtifact) (fu : Bool) :
    ((flushInputSide beh ctx arts fu).1).output_audio_cache
      = ctx.output_audio_cache := by
  unfold flushInputSide
  by_cases h1 : (fu && pyTruthy ctx.input_audio_cache) = true
  · simp only [h1, if_true]
    by_cases h2 : (_flush_cache_to_services ctx arts beh.input_outcome
        (ctx.input_audio_cache.getD []) "input_audio").2 = true
    · simp [h2, flushToServices_output_cache]
    · simp only [Bool.not_eq_true] at h2
      simp [h2, flushToServices_output_cache]
  · simp [h1]

/-- The input-side block preserves `artifact_service`. -/
theorem flushInputSide_service (beh : FlushBehavior)
    (ctx : InvocationContext) (arts : List SavedArtifact) (fu : Bool) :
    ((flushInputSide beh ctx arts fu).1).artifact_service
      = ctx.artifact_service := by
  unfold flushInputSide
  by_cases h1 : (fu && pyTruthy ctx.input_audio_cache) = true
  · simp only [h1, if_true]
    by_cases h2 : (_flush_cache_to_services ctx arts beh.input_outcome
        (ctx.input_audio_cache.getD []) "input_audio").2 = true
    · simp [h2, (flushToServices_ctx_fields ctx arts beh.input_outcome
        (ctx.input_audio_cache.getD []) "input_audio").1]
    · simp only [Bool.not_eq_true] at h2
      simp [h2, (flushToServices_ctx_fields ctx arts beh.input_outcome
        (ctx.input_audio_cache.getD []) "input_audio").1]
  · simp [h1]

/-- A skipped input-side block (flag unset or falsy cache) is the identity. -/
theorem flushInputSide_skip (beh : FlushBehavior) (ctx : InvocationContext)
    (arts : List SavedArtifact) (fu : Bool)
    (h : fu = false ∨ pyTruthy ctx.input_audio_cache = false) :
    flushInputSide beh ctx arts fu = (ctx, arts) := by
  unfold flushInputSide
  rcases h with h | h <;> simp [h]

/-- The output-side block never touches the input cache. -/
theorem flushOutputSide_input_cache (beh : FlushBehavior)
    (s : InvocationContext × List SavedArtifact) (fm : Bool) :
    ((flushOutputSide beh s fm).1).input_audio_cache
      = (s.1).input_audio_cache := by
  unfold flushOutputSide
  by_cases h1 : (fm && pyTruthy (s.1).output_audio_cache) = true
  · simp only [h1, if_true]
    by_cases h2 : (_flush_cache_to_services s.1 s.2 beh.output_outcome
        ((s.1).output_audio_cache.getD []) "output_audio").2 = true
    · simp [h2, flushToServices_input_cache]
    · simp only [Bool.not_eq_true] at h2
      simp [h2, flushToServices_input_cache]
  · simp [h1]

/-- The output cache after the output-side block. -/
theorem flushOutputSide_output_cache (beh : FlushBehavior)
    (s : InvocationContext × List SavedArtifact) (fm : Bool) :
    ((flushOutputSide beh s fm).1).output_audio_cache
      = (if fm && pyTruthy (s.1).output_audio_cache
            && (_flush_cache_to_services s.1 s.2 beh.output_outcome
                  ((s.1).output_audio_cache.getD []) "output_audio").2
         then Option.some [] else (s.1).output_audio_cache) := by
  unfold flushOutputSide
  by_cases h1 : (fm && pyTruthy (s.1).output_audio_cache) = true
  · simp only [h1, if_true, Bool.true_and]
    by_cases h2 : (_flush_cache_to_services s.1 s.2 beh.output_outcome
        ((s.1).output_audio_cache.getD []) "output_audio").2 = true
    · simp [h2]
    · simp only [Bool.not_eq_true] at h2
      simp [h2, flushToServices_output_cache]
  · simp only [Bool.not_eq_true] at h1
    simp [h1]

/-- A skipped output-side block is the identity. -/
theorem flushOutputSide_skip (beh : FlushBehavior)
    (s : InvocationContext × List SavedArtifact) (fm : Bool)
    (h : fm = false ∨ pyTruthy (s.1).output_audio_cache = false) :
    flushOutputSide beh s fm = s := by
  unfold flushOutputSide
  rcases h with h | h <;> simp [h]

/-- A truthy `Optional[list]` holds a non-empty list. -/
theorem pyTruthy_getD {α : Type} (o : Option (List α))
    (h : pyTruthy o = true) : (o.getD []).isEmpty = false := by
  cases o with
  | none => simp [pyTruthy] at h
  | some l => simpa [pyTruthy] using h

/-- C3: when the artifact save or the session append fails for a requested
side, that side's cache is left exactly as it was before the call (the
exception is caught inside `_flush_cache_to_services`, which returns
`False`, so `flush_caches` — a total function in this embedding, like the
`except Exception` catch-all in the source — does not clear the cache and
does not re-raise). -/
theorem flush_failure_preserves_caches (beh : FlushBehavior)
    (ctx : InvocationContext) (arts : List SavedArtifact) (fu fm : Bool) :
    ((beh.input_outcome.save_revision = Option.none
        ∨ beh.input_outcome.append_raises = true) →
      ((flush_caches beh ctx arts fu fm).1.1).input_audio_cache
        = ctx.input_audio_cache)
    ∧ ((beh.output_outcome.save_revision = Option.none
        ∨ beh.output_outcome.append_raises = true) →
      ((flush_caches beh ctx arts fu fm).1.1).output_audio_cache
        = ctx.output_audio_cache) := by
  constructor
  · intro h
    have hsucc : (_flush_cache_to_services ctx arts beh.input_outcome
        (ctx.input_audio_cache.getD []) "input_audio").2 = false := by
      rw [flushToServices_success_iff]
      rcases h with h | h <;> simp [h]
    show ((flushOutputSide beh (flushInputSide beh ctx arts fu) fm).1).input_audio_cache = _
    rw [flushOutputSide_input_cache, flushInputSide_input_cache, hsucc]
    simp
  · intro h
    have hout : ((flushInputSide beh ctx arts fu).1).output_audio_cache
        = ctx.output_audio_cache := flushInputSide_output_cache beh ctx arts fu
    have hsucc : (_flush_cache_to_services (flushInputSide beh ctx arts fu).1
        (flushInputSide beh ctx arts fu).2 beh.output_outcome
        (((flushInputSide beh ctx arts fu).1).output_audio_cache.getD [])
        "output_audio").2 = false := by
      rw [flushToServices_success_iff]
      rcases h with h | h <;> simp [h]
    show ((flushOutputSide beh (flushInputSide beh ctx arts fu) fm).1).output_audio_cache = _
    rw [flushOutputSide_output_cache, hsucc]
    simp [hout]

/-- Witness for C3: with a failing artifact save on both sides and
one cached chunk per side, both caches survive the flush untouched. -/
theorem flush_failure_preserves_caches_witness :
    (((flush_caches
        { input_outcome := { save_revision := Option.none, append_raises := false },
          output_outcome := { save_revision := Option.none, append_raises := false } }
        { app_name := "app", user_id := "u", invocation_id := "inv",
          session := { id := "s", events := [] },
          input_audio_cache := Option.some
            [{ role := "user",
               data := { data := [1, 2], mime_type := "audio/pcm" },
               timestamp := 5 }],
          output_audio_cache := Option.some
            [{ role := "model",
               data := { data := [3], mime_type := "audio/pcm" },
               timestamp := 6 }],
          artifact_service := true }
        [] true true).1.1).input_audio_cache
      = Option.some
          [{ role := "user",
             data := { data := [1, 2], mime_type := "audio/pcm" },
             timestamp := 5 }]) := by
  exact (flush_failure_preserves_caches _ _ _ true true).1 (Or.inl rfl)

/-- C6: selective flushing.  `(False, True)` leaves the input (user) cache
unchanged and, when the output flush succeeds, empties the output (model)
cache; `(True, False)` symmetrically; `(False, False)` changes neither
cache (in fact the whole state is unchanged). -/
theorem selective_flush (beh : FlushBehavior) (ctx : InvocationContext)
    (arts : List SavedArtifact) :
    (((flush_caches beh ctx arts false true).1.1).input_audio_cache
        = ctx.input_audio_cache)
    ∧ ((ctx.artifact_service = true ∧ pyTruthy ctx.output_audio_cache = true
        ∧ beh.output_outcome.save_revision.isSome = true
        ∧ beh.output_outcome.append_raises = false) →
      ((flush_caches beh ctx arts false true).1.1).output_audio_cache
        = Option.some [])
    ∧ (((flush_caches beh ctx arts true false).1.1).output_audio_cache
        = ctx.output_audio_cache)
    ∧ ((ctx.artifact_service = true ∧ pyTruthy ctx.input_audio_cache = true
        ∧ beh.input_outcome.save_revision.isSome = true
        ∧ beh.input_outcome.append_raises = false) →
      ((flush_caches beh ctx arts true false).1.1).input_audio_cache
        = Option.some [])
    ∧ (flush_caches beh ctx arts false false
        = ((ctx, arts), PyFlushReturn.pyNone)) := by
  have hskipIn : flushInputSide beh ctx arts false = (ctx, arts) :=
    flushInputSide_skip beh ctx arts false (Or.inl rfl)
  refine ⟨?_, ?_, ?_, ?_, ?_⟩
  · show ((flushOutputSide beh (flushInputSide beh ctx arts false) true).1).input_audio_cache = _
    rw [flushOutputSide_input_cache, hskipIn]
  · rintro ⟨hsvc, hpt, hsave, happ⟩
    have hsucc : (_flush_cache_to_services ctx arts beh.output_outcome
        (ctx.output_audio_cache.getD []) "output_audio").2 = true := by
      rw [flushToServices_success_iff, pyTruthy_getD _ hpt]
      simp [hsvc, hsave, happ]
    show ((flushOutputSide beh (flushInputSide beh ctx arts false) true).1).output_audio_cache = _
    rw [hskipIn, flushOutputSide_output_cache]
    simp [hpt, hsucc]
  · show ((flushOutputSide beh (flushInputSide beh ctx arts true) false).1).output_audio_cache = _
    rw [flushOutputSide_skip beh _ false (Or.inl rfl), flushInputSide_output_cache]
  · rintro ⟨hsvc, hpt, hsave, happ⟩
    have hsucc : (_flush_cache_to_services ctx arts beh.input_outcome
        (ctx.input_audio_cache.getD []) "input_audio").2 = true := by
      rw [flushToServices_success_iff, pyTruthy_getD _ hpt]
      simp [hsvc, hsave, happ]
    show ((flushOutputSide beh (flushInputSide beh ctx arts true) false).1).input_audio_cache = _
    rw [flushOutputSide_skip beh _ false (Or.inl rfl), flushInputSide_input_cache]
    simp [hpt, hsucc]
  · show (flushOutputSide beh (flushInputSide beh ctx arts false) false, PyFlushReturn.pyNone) = _
    rw [flushOutputSide_skip beh _ false (Or.inl rfl), hskipIn]

/-- Witness for C6 at a concrete state whose output flush succeeds. -/
theorem selective_flush_witness :
    (((flush_caches
        { input_outcome := { save_revision := Option.some "r1", append_raises := false },
          output_outcome := { save_revision := Option.some "r2", append_raises := false } }
        { app_name := "app", user_id := "u", invocation_id := "inv",
          session := { id := "s", events := [] },
          input_audio_cache := Option.some
            [{ role := "user",
               data := { data := [1], mime_type := "audio/pcm" },
               timestamp := 5 }],
          output_audio_cache := Option.some
            [{ role := "model",
               data := { data := [3], mime_type := "audio/pcm" },
               timestamp := 6 }],
          artifact_service := true }
        [] false true).1.1).output_audio_cache
      = Option.some []) := by
  exact (selective_flush _ _ _).2.1 ⟨rfl, rfl, rfl, rfl⟩

/-- C7: a flush with no artifact service configured, or with both caches
empty or absent, performs no artifact save and no session append and
leaves the entire state (caches, session event log, artifact store)
unchanged — absence is a skip, not an error.  Moreover requesting a side
whose cache is empty or absent is the same as not requesting it. -/
theorem flush_noop_on_empty (beh : FlushBehavior) (ctx : InvocationContext)
    (arts : List SavedArtifact) (fu fm : Bool) :
    (ctx.artifact_service = false →
      flush_caches beh ctx arts fu fm = ((ctx, arts), PyFlushReturn.pyNone))
    ∧ (pyTruthy ctx.input_audio_cache = false
        ∧ pyTruthy ctx.output_audio_cache = false →
      flush_caches beh ctx arts fu fm = ((ctx, arts), PyFlushReturn.pyNone))
    ∧ (pyTruthy ctx.input_audio_cache = false →
      flush_caches beh ctx arts fu fm = flush_caches beh ctx arts false fm)
    ∧ (pyTruthy ctx.output_audio_cache = false →
      flush_caches beh ctx arts fu fm = flush_caches beh ctx arts fu false) := by
  refine ⟨?_, ?_, ?_, ?_⟩
  · intro hsvc
    have hs1 : flushInputSide beh ctx arts fu = (ctx, arts) := by
      unfold flushInputSide
      by_cases h1 : (fu && pyTruthy ctx.input_audio_cache) = true
      · simp [h1, flushToServices_skip ctx arts beh.input_outcome _ _ (Or.inl hsvc)]
      · simp [h1]
    have hs2 : flushOutputSide beh (ctx, arts) fm = (ctx, arts) := by
      unfold flushOutputSide
      by_cases h1 : (fm && pyTruthy ctx.output_audio_cache) = true
      · simp only [h1, if_true]
        simp [flushToServices_skip ctx arts beh.output_outcome _ _ (Or.inl hsvc)]
      · simp [h1]
    show (flushOutputSide beh (flushInputSide beh ctx arts fu) fm, PyFlushReturn.pyNone) = _
    rw [hs1, hs2]
  · rintro ⟨hin, hout⟩
    have hs1 : flushInputSide beh ctx arts fu = (ctx, arts) :=
      flushInputSide_skip beh ctx arts fu (Or.inr hin)
    have hs2 : flushOutputSide beh (ctx, arts) fm = (ctx, arts) :=
      flushOutputSide_skip beh (ctx, arts) fm (Or.inr hout)
    show (flushOutputSide beh (flushInputSide beh ctx arts fu) fm, PyFlushReturn.pyNone) = _
    rw [hs1, hs2]
  · intro hin
    have hs1 : flushInputSide beh ctx arts fu = (ctx, arts) :=
      flushInputSide_skip beh ctx arts fu (Or.inr hin)
    have hs1f : flushInputSide beh ctx arts false = (ctx, arts) :=
      flushInputSide_skip beh ctx arts false (Or.inl rfl)
    show (flushOutputSide beh (flushInputSide beh ctx arts fu) fm, PyFlushReturn.pyNone)
      = (flushOutputSide beh (flushInputSide beh ctx arts false) fm, PyFlushReturn.pyNone)
    rw [hs1, hs1f]
  · intro hout
    have hback : ((flushInputSide beh ctx arts fu).1).output_audio_cache
        = ctx.output_audio_cache := flushInputSide_output_cache beh ctx arts fu
    have hs2 : flushOutputSide beh (flushInputSide beh ctx arts fu) fm
        = flushInputSide beh ctx arts fu :=
      flushOutputSide_skip beh _ fm (Or.inr (by rw [hback]; exact hout))
    have hs2f : flushOutputSide beh (flushInputSide beh ctx arts fu) false
        = flushInputSide beh ctx arts fu :=
      flushOutputSide_skip beh _ false (Or.inl rfl)
    show (flushOutputSide beh (flushInputSide beh ctx arts fu) fm, PyFlushReturn.pyNone)
      = (flushOutputSide beh (flushInputSide beh ctx arts fu) false, PyFlushReturn.pyNone)
    rw [hs2, hs2f]

/-- Witness for C7: with no artifact service and a non-empty input cache,
the whole flush is a no-op. -/
theorem flush_noop_on_empty_witness :
    flush_caches
        { input_outcome := { save_revision := Option.some "r1", append_raises := false },
          output_outcome := { save_revision := Option.some "r2", append_raises := false } }
        { app_name := "app", user_id := "u", invocation_id := "inv",
          session := { id := "s", events := [] },
          input_audio_cache := Option.some
            [{ role := "user",
               data := { data := [1], mime_type := "audio/pcm" },
               timestamp := 5 }],
          output_audio_cache := Option.none,
          artifact_service := false }
        [] true true
      = (({ app_name := "app", user_id := "u", invocation_id := "inv",
            session := { id := "s", events := [] },
            input_audio_cache := Option.some
              [{ role := "user",
                 data := { data := [1], mime_type := "audio/pcm" },
                 timestamp := 5 }],
            output_audio_cache := Option.none,
            artifact_service := false }, []), PyFlushReturn.pyNone) := by
  exact (flush_noop_on_empty _ _ _ true true).1 rfl

/-- C8 counterexample: `flush_caches` is annotated `-> None` and has no
return statement, so its Python return value is `None` — not a per-side
success boolean (it differs from every `per_side` value).  The per-side
booleans exist only inside the call, as the results of
`_flush_cache_to_services`. -/
theorem flush_caches_return_counterexample :
    (flush_caches
        { input_outcome := { save_revision := Option.some "r1", append_raises := false },
          output_outcome := { save_revision := Option.some "r2", append_raises := false } }
        { app_name := "app", user_id := "u", invocation_id := "inv",
          session := { id := "s", events := [] },
          input_audio_cache := Option.some
            [{ role := "user",
               data := { data := [1], mime_type := "audio/pcm" },
               timestamp := 5 }],
          output_audio_cache := Option.none,
          artifact_service := true }
        [] true true).2 = PyFlushReturn.pyNone
    ∧ PyFlushReturn.pyNone ≠ PyFlushReturn.per_side false false
    ∧ PyFlushReturn.pyNone ≠ PyFlushReturn.per_side false true
    ∧ PyFlushReturn.pyNone ≠ PyFlushReturn.per_side true false
    ∧ PyFlushReturn.pyNone ≠ PyFlushReturn.per_side true true := by
  refine ⟨rfl, ?_, ?_, ?_, ?_⟩ <;> intro h <;> exact PyFlushReturn.noConfusion h

/-- C8 (amended): every call of `flush_caches` returns `None`; the
per-side success boolean is the return value of the internal helper
`_flush_cache_to_services`, one per requested side, and it is `True`
exactly when the artifact service is configured, the side's cache is
non-empty, the artifact save returned a revision and the session append
did not raise. -/
theorem flush_caches_returns_none (beh : FlushBehavior)
    (ctx : InvocationContext) (arts : List SavedArtifact) (fu fm : Bool)
    (o : ServiceOutcome) (cache : List AudioCacheEntry) (ct : String) :
    (flush_caches beh ctx arts fu fm).2 = PyFlushReturn.pyNone
    ∧ (_flush_cache_to_services ctx arts o cache ct).2
        = (ctx.artifact_service && !cache.isEmpty
            && o.save_revision.isSome && !o.append_raises) :=
  ⟨rfl, flushToServices_success_iff ctx arts o cache ct⟩

/-- Full characterization of a successful `_flush_cache_to_services` run
on a non-empty cache: one artifact holding the concatenation of all
chunks' bytes under the first chunk's mime type is saved under
`{cache_type}_{int(first_timestamp*1000)}.{subtype}`, and one session
event referencing `artifact://{app}/{user}/{session}/{filename}#{revision}`
with the first entry's role and timestamp is appended. -/
theorem flushToServices_success_eq (ctx : InvocationContext)
    (arts : List SavedArtifact) (o : ServiceOutcome)
    (first : AudioCacheEntry) (rest : List AudioCacheEntry)
    (ct rev : String)
    (hsvc : ctx.artifact_service = true)
    (hsave : o.save_revision = Option.some rev)
    (happ : o.append_raises = false) :
    _flush_cache_to_services ctx arts o (first :: rest) ct
      = (({ ctx with
              session := { ctx.session with
                events := ctx.session.events ++
                  [{ invocation_id := ctx.invocation_id
                     author := first.role
                     content := { role := first.role
                                  parts := [Part.file_data {
                                    file_uri := "artifact://" ++ ctx.app_name
                                      ++ "/" ++ ctx.user_id ++ "/" ++ ctx.session.id
                                      ++ "/" ++ (ct ++ "_"
                                        ++ toString (pyInt (first.timestamp * 1000))
                                        ++ "." ++ pySplitLast first.data.mime_type '/')
                                      ++ "#" ++ rev,
                                    mime_type := first.data.mime_type }] }
                     timestamp := first.timestamp }] } },
          arts ++
            [{ app_name := ctx.app_name, user_id := ctx.user_id,
               session_id := ctx.session.id,
               filename := ct ++ "_"
                 ++ toString (pyInt (first.timestamp * 1000))
                 ++ "." ++ pySplitLast first.data.mime_type '/',
               artifact := Part.inline_data {
                 data := ((first :: rest).map (fun e => e.data.data)).flatten,
                 mime_type := first.data.mime_type } }]), true) := by
  unfold _flush_cache_to_services
  simp [hsvc, hsave, happ]

/-- C1: flushing a non-empty side with that side enabled, an artifact
service configured and both service calls succeeding persists exactly one
artifact — bytes = concatenation of all cached chunks in append order,
mime type = first chunk's mime type, filename =
`{cache_type}_{int(first_timestamp*1000)}.{subtype}` — and appends exactly
one session event referencing
`artifact://{app}/{user}/{session}/{filename}#{revision}` with
author = the first entry's role and timestamp = the first entry's
timestamp, after which that side's cache is empty (`[]`) and the other
side's cache is untouched.  Stated for the input side flushed with
`(True, False)` and for the output side flushed with `(False, True)`. -/
theorem flush_roundtrip (beh : FlushBehavior) (ctx : InvocationContext)
    (arts : List SavedArtifact) (ifirst : AudioCacheEntry)
    (irest : List AudioCacheEntry) (irev : String)
    (ofirst : AudioCacheEntry) (orest : List AudioCacheEntry)
    (orev : String) :
    (ctx.input_audio_cache = Option.some (ifirst :: irest) →
     ctx.artifact_service = true →
     beh.input_outcome.save_revision = Option.some irev →
     beh.input_outcome.append_raises = false →
     flush_caches beh ctx arts true false
       = (({ ctx with
               session := { ctx.session with
                 events := ctx.session.events ++
                   [{ invocation_id := ctx.invocation_id
                      author := ifirst.role
                      content := { role := ifirst.role
                                   parts := [Part.file_data {
                                     file_uri := "artifact://" ++ ctx.app_name
                                       ++ "/" ++ ctx.user_id ++ "/" ++ ctx.session.id
                                       ++ "/" ++ ("input_audio" ++ "_"
                                         ++ toString (pyInt (ifirst.timestamp * 1000))
                                         ++ "." ++ pySplitLast ifirst.data.mime_type '/')
                                       ++ "#" ++ irev,
                                     mime_type := ifirst.data.mime_type }] }
                      timestamp := ifirst.timestamp }] },
               input_audio_cache := Option.some [] },
            arts ++
              [{ app_name := ctx.app_name, user_id := ctx.user_id,
                 session_id := ctx.session.id,
                 filename := "input_audio" ++ "_"
                   ++ toString (pyInt (ifirst.timestamp * 1000))
                   ++ "." ++ pySplitLast ifirst.data.mime_type '/',
                 artifact := Part.inline_data {
                   data := ((ifirst :: irest).map (fun e => e.data.data)).flatten,
                   mime_type := ifirst.data.mime_type } }]),
          PyFlushReturn.pyNone))
    ∧ (ctx.output_audio_cache = Option.some (ofirst :: orest) →
     ctx.artifact_service = true →
     beh.output_outcome.save_revision = Option.some orev →
     beh.output_outcome.append_raises = false →
     flush_caches beh ctx arts false true
       = (({ ctx with
               session := { ctx.session with
                 events := ctx.session.events ++
                   [{ invocation_id := ctx.invocation_id
                      author := ofirst.role
                      content := { role := ofirst.role
                                   parts := [Part.file_data {
                                     file_uri := "artifact://" ++ ctx.app_name
                                       ++ "/" ++ ctx.user_id ++ "/" ++ ctx.session.id
                                       ++ "/" ++ ("output_audio" ++ "_"
                                         ++ toString (pyInt (ofirst.timestamp * 1000))
                                         ++ "." ++ pySplitLast ofirst.data.mime_type '/')
                                       ++ "#" ++ orev,
                                     mime_type := ofirst.data.mime_type }] }
                      timestamp := ofirst.timestamp }] },
               output_audio_cache := Option.some [] },
            arts ++
              [{ app_name := ctx.app_name, user_id := ctx.user_id,
                 session_id := ctx.session.id,
                 filename := "output_audio" ++ "_"
                   ++ toString (pyInt (ofirst.timestamp * 1000))
                   ++ "." ++ pySplitLast ofirst.data.mime_type '/',
                 artifact := Part.inline_data {
                   data := ((ofirst :: orest).map (fun e => e.data.data)).flatten,
                   mime_type := ofirst.data.mime_type } }]),
          PyFlushReturn.pyNone)) := by
  constructor
  · intro hin hsvc hsave happ
    have hr := flushToServices_success_eq ctx arts beh.input_outcome
      ifirst irest "input_audio" irev hsvc hsave happ
    have hs1 : flushInputSide beh ctx arts true
        = ({ ctx with
               session := { ctx.session with
                 events := ctx.session.events ++
                   [{ invocation_id := ctx.invocation_id
                      author := ifirst.role
                      content := { role := ifirst.role
                                   parts := [Part.file_data {
                                     file_uri := "artifact://" ++ ctx.app_name
                                       ++ "/" ++ ctx.user_id ++ "/" ++ ctx.session.id
                                       ++ "/" ++ ("input_audio" ++ "_"
                                         ++ toString (pyInt (ifirst.timestamp * 1000))
                                         ++ "." ++ pySplitLast ifirst.data.mime_type '/')
                                       ++ "#" ++ irev,
                                     mime_type := ifirst.data.mime_type }] }
                      timestamp := ifirst.timestamp }] },
               input_audio_cache := Option.some [] },
             arts ++
              [{ app_name := ctx.app_name, user_id := ctx.user_id,
                 session_id := ctx.session.id,
                 filename := "input_audio" ++ "_"
                   ++ toString (pyInt (ifirst.timestamp * 1000))
                   ++ "." ++ pySplitLast ifirst.data.mime_type '/',
                 artifact := Part.inline_data {
                   data := ((ifirst :: irest).map (fun e => e.data.data)).flatten,
                   mime_type := ifirst.data.mime_type } }]) := by
      unfold flushInputSide
      rw [hin]
      simp only [pyTruthy, List.isEmpty_cons, Bool.not_false, Bool.and_true,
        Option.getD_some, if_true]
      rw [hr]
      simp
    show (flushOutputSide beh (flushInputSide beh ctx arts true) false,
          PyFlushReturn.pyNone) = _
    rw [flushOutputSide_skip beh _ false (Or.inl rfl), hs1]
  · intro hout hsvc hsave happ
    have hr := flushToServices_success_eq ctx arts beh.output_outcome
      ofirst orest "output_audio" orev hsvc hsave happ
    have hs1 : flushInputSide beh ctx arts false = (ctx, arts) :=
      flushInputSide_skip beh ctx arts false (Or.inl rfl)
    show (flushOutputSide beh (flushInputSide beh ctx arts false) true,
          PyFlushReturn.pyNone) = _
    rw [hs1]
    unfold flushOutputSide
    rw [show ((ctx, arts) : InvocationContext × List SavedArtifact).1 = ctx from rfl,
        show ((ctx, arts) : InvocationContext × List SavedArtifact).2 = arts from rfl,
        hout]
    simp only [pyTruthy, List.isEmpty_cons, Bool.not_false, Bool.and_true,
      Option.getD_some, if_true]
    rw [hr]
    simp

/-- Witness for C1, the spec's concrete scenario: flushing the single
cached user chunk with `(flush_user_audio=True, flush_model_audio=False)`
persists exactly the artifact `input_audio_1234567890000.pcm` with the
chunk's bytes, appends exactly one session event referencing
`artifact://test_app/test_user/test_session/input_audio_1234567890000.pcm#rev1`
with author `user` and timestamp `1234567890.0`, and empties the input
audio cache. -/
theorem flush_roundtrip_witness :
    flush_caches sampleBeh sampleCtx [] true false
      = (({ app_name := "test_app", user_id := "test_user",
            invocation_id := "inv1",
            session := { id := "test_session",
                         events := [{ invocation_id := "inv1", author := "user",
                                      content := { role := "user",
                                                   parts := [Part.file_data {
                                                     file_uri := "artifact://test_app/test_user/test_session/input_audio_1234567890000.pcm#rev1",
                                                     mime_type := "audio/pcm" }] },
                                      timestamp := 1234567890 }] },
            input_audio_cache := Option.some [],
            output_audio_cache := Option.none,
            artifact_service := true },
          [{ app_name := "test_app", user_id := "test_user",
             session_id := "test_session",
             filename := "input_audio_1234567890000.pcm",
             artifact := Part.inline_data {
               data := [0, 255, 1, 2, 3, 4, 5, 6],
               mime_type := "audio/pcm" } }]),
         PyFlushReturn.pyNone) := by
  have h := (flush_roundtrip sampleBeh sampleCtx [] sampleEntry [] "rev1"
    sampleEntry [] "rev2").1 rfl rfl rfl rfl
  refine h.trans ?_
  have hnum : pyInt ((1234567890 : Rat) * 1000) = 1234567890000 := by
    have h1 : ((1234567890 : Rat) * 1000) = (1234567890000 : Rat) := by norm_num
    unfold pyInt
    rw [h1]
    simp
  simp only [sampleEntry, sampleCtx, sampleBeh]
  rw [hnum]
  decide

/-- A successful output-side block on an arbitrary intermediate state:
appends the output-audio event and artifact and clears the output cache. -/
theorem flushOutputSide_success_eq (beh : FlushBehavior)
    (s : InvocationContext × List SavedArtifact)
    (ofirst : AudioCacheEntry) (orest : List AudioCacheEntry) (orev : String)
    (hout : (s.1).output_audio_cache = Option.some (ofirst :: orest))
    (hsvc : (s.1).artifact_service = true)
    (hso : beh.output_outcome.save_revision = Option.some orev)
    (hao : beh.output_outcome.append_raises = false) :
    flushOutputSide beh s true
      = ({ s.1 with
             session := { (s.1).session with
               events := (s.1).session.events ++
                 [{ invocation_id := (s.1).invocation_id
                    author := ofirst.role
                    content := { role := ofirst.role
                                 parts := [Part.file_data {
                                   file_uri := "artifact://" ++ (s.1).app_name
                                     ++ "/" ++ (s.1).user_id ++ "/" ++ (s.1).session.id
                                     ++ "/" ++ ("output_audio" ++ "_"
                                       ++ toString (pyInt (ofirst.timestamp * 1000))
                                       ++ "." ++ pySplitLast ofirst.data.mime_type '/')
                                     ++ "#" ++ orev,
                                   mime_type := ofirst.data.mime_type }] }
                    timestamp := ofirst.timestamp }] },
             output_audio_cache := Option.some [] },
         s.2 ++
           [{ app_name := (s.1).app_name, user_id := (s.1).user_id,
              session_id := (s.1).session.id,
              filename := "output_audio" ++ "_"
                ++ toString (pyInt (ofirst.timestamp * 1000))
                ++ "." ++ pySplitLast ofirst.data.mime_type '/',
              artifact := Part.inline_data {
                data := ((ofirst :: orest).map (fun e => e.data.data)).flatten,
                mime_type := ofirst.data.mime_type } }]) := by
  have hr := flushToServices_success_eq s.1 s.2 beh.output_outcome
    ofirst orest "output_audio" orev hsvc hso hao
  unfold flushOutputSide
  rw [hout]
  simp only [pyTruthy, List.isEmpty_cons, Bool.not_false, Bool.and_true,
    Option.getD_some, if_true]
  rw [hr]
  simp

/-- C9: when one `flush_caches` call is asked to flush both sides and both
caches are non-empty and both service calls succeed on each side, the
input (user) side is flushed first: the final session log is the original
log extended with the input-audio event and then the output-audio event,
and the artifact store gains the input-audio artifact before the
output-audio artifact. -/
theorem flush_input_side_first (beh : FlushBehavior) (ctx : InvocationContext)
    (arts : List SavedArtifact) (ifirst : AudioCacheEntry)
    (irest : List AudioCacheEntry) (irev : String)
    (ofirst : AudioCacheEntry) (orest : List AudioCacheEntry) (orev : String)
    (hin : ctx.input_audio_cache = Option.some (ifirst :: irest))
    (hout : ctx.output_audio_cache = Option.some (ofirst :: orest))
    (hsvc : ctx.artifact_service = true)
    (hsi : beh.input_outcome.save_revision = Option.some irev)
    (hai : beh.input_outcome.append_raises = false)
    (hso : beh.output_outcome.save_revision = Option.some orev)
    (hao : beh.output_outcome.append_raises = false) :
    flush_caches beh ctx arts true true
      = (({ ctx with
              session := { ctx.session with
                events := ctx.session.events ++
                  [{ invocation_id := ctx.invocation_id
                     author := ifirst.role
                     content := { role := ifirst.role
                                  parts := [Part.file_data {
                                    file_uri := "artifact://" ++ ctx.app_name
                                      ++ "/" ++ ctx.user_id ++ "/" ++ ctx.session.id
                                      ++ "/" ++ ("input_audio" ++ "_"
                                        ++ toString (pyInt (ifirst.timestamp * 1000))
                                        ++ "." ++ pySplitLast ifirst.data.mime_type '/')
                                      ++ "#" ++ irev,
                                    mime_type := ifirst.data.mime_type }] }
                     timestamp := ifirst.timestamp },
                   { invocation_id := ctx.invocation_id
                     author := ofirst.role
                     content := { role := ofirst.role
                                  parts := [Part.file_data {
                                    file_uri := "artifact://" ++ ctx.app_name
                                      ++ "/" ++ ctx.user_id ++ "/" ++ ctx.session.id
                                      ++ "/" ++ ("output_audio" ++ "_"
                                        ++ toString (pyInt (ofirst.timestamp * 1000))
                                        ++ "." ++ pySplitLast ofirst.data.mime_type '/')
                                      ++ "#" ++ orev,
                                    mime_type := ofirst.data.mime_type }] }
                     timestamp := ofirst.timestamp }] },
              input_audio_cache := Option.some [],
              output_audio_cache := Option.some [] },
           arts ++
             [{ app_name := ctx.app_name, user_id := ctx.user_id,
                session_id := ctx.session.id,
                filename := "input_audio" ++ "_"
                  ++ toString (pyInt (ifirst.timestamp * 1000))
                  ++ "." ++ pySplitLast ifirst.data.mime_type '/',
                artifact := Part.inline_data {
                  data := ((ifirst :: irest).map (fun e => e.data.data)).flatten,
                  mime_type := ifirst.data.mime_type } },
              { app_name := ctx.app_name, user_id := ctx.user_id,
                session_id := ctx.session.id,
                filename := "output_audio" ++ "_"
                  ++ toString (pyInt (ofirst.timestamp * 1000))
                  ++ "." ++ pySplitLast ofirst.data.mime_type '/',
                artifact := Part.inline_data {
                  data := ((ofirst :: orest).map (fun e => e.data.data)).flatten,
                  mime_type := ofirst.data.mime_type } }]),
         PyFlushReturn.pyNone) := by
  have hr := flushToServices_success_eq ctx arts beh.input_outcome
    ifirst irest "input_audio" irev hsvc hsi hai
  have hs1 : flushInputSide beh ctx arts true
      = ({ ctx with
             session := { ctx.session with
               events := ctx.session.events ++
                 [{ invocation_id := ctx.invocation_id
                    author := ifirst.role
                    content := { role := ifirst.role
                                 parts := [Part.file_data {
                                   file_uri := "artifact://" ++ ctx.app_name
                                     ++ "/" ++ ctx.user_id ++ "/" ++ ctx.session.id
                                     ++ "/" ++ ("input_audio" ++ "_"
                                       ++ toString (pyInt (ifirst.timestamp * 1000))
                                       ++ "." ++ pySplitLast ifirst.data.mime_type '/')
                                     ++ "#" ++ irev,
                                   mime_type := ifirst.data.mime_type }] }
                    timestamp := ifirst.timestamp }] },
             input_audio_cache := Option.some [] },
           arts ++
             [{ app_name := ctx.app_name, user_id := ctx.user_id,
                session_id := ctx.session.id,
                filename := "input_audio" ++ "_"
                  ++ toString (pyInt (ifirst.timestamp * 1000))
                  ++ "." ++ pySplitLast ifirst.data.mime_type '/',
                artifact := Part.inline_data {
                  data := ((ifirst :: irest).map (fun e => e.data.data)).flatten,
                  mime_type := ifirst.data.mime_type } }]) := by
    unfold flushInputSide
    rw [hin]
    simp only [pyTruthy, List.isEmpty_cons, Bool.not_false, Bool.and_true,
      Option.getD_some, if_true]
    rw [hr]
    simp
  show (flushOutputSide beh (flushInputSide beh ctx arts true) true,
        PyFlushReturn.pyNone) = _
  rw [hs1, flushOutputSide_success_eq beh _ ofirst orest orev hout hsvc hso hao]
  simp

/-- Witness for C9: flushing both sides appends the input-audio event
before the output-audio event and saves the input artifact before the
output artifact. -/
theorem flush_input_side_first_witness :
    flush_caches sampleBeh sampleCtxBoth [] true true
      = (({ app_name := "test_app", user_id := "test_user",
            invocation_id := "inv1",
            session := { id := "test_session",
                         events := [{ invocation_id := "inv1", author := "user",
                                      content := { role := "user",
                                                   parts := [Part.file_data {
                                                     file_uri := "artifact://test_app/test_user/test_session/input_audio_1234567890000.pcm#rev1",
                                                     mime_type := "audio/pcm" }] },
                                      timestamp := 1234567890 },
                                    { invocation_id := "inv1", author := "model",
                                      content := { role := "model",
                                                   parts := [Part.file_data {
                                                     file_uri := "artifact://test_app/test_user/test_session/output_audio_1234567891000.pcm#rev2",
                                                     mime_type := "audio/pcm" }] },
                                      timestamp := 1234567891 }] },
            input_audio_cache := Option.some [],
            output_audio_cache := Option.some [],
            artifact_service := true },
          [{ app_name := "test_app", user_id := "test_user",
             session_id := "test_session",
             filename := "input_audio_1234567890000.pcm",
             artifact := Part.inline_data {
               data := [0, 255, 1, 2, 3, 4, 5, 6],
               mime_type := "audio/pcm" } },
           { app_name := "test_app", user_id := "test_user",
             session_id := "test_session",
             filename := "output_audio_1234567891000.pcm",
             artifact := Part.inline_data {
               data := [9, 8],
               mime_type := "audio/pcm" } }]),
         PyFlushReturn.pyNone) := by
  have h := flush_input_side_first sampleBeh sampleCtxBoth []
    sampleEntry [] "rev1" sampleModelEntry [] "rev2"
    rfl rfl rfl rfl rfl rfl rfl
  refine h.trans ?_
  have hnum1 : pyInt ((1234567890 : Rat) * 1000) = 1234567890000 := by
    have h1 : ((1234567890 : Rat) * 1000) = (1234567890000 : Rat) := by norm_num
    unfold pyInt
    rw [h1]
    simp
  have hnum2 : pyInt ((1234567891 : Rat) * 1000) = 1234567891000 := by
    have h1 : ((1234567891 : Rat) * 1000) = (1234567891000 : Rat) := by norm_num
    unfold pyInt
    rw [h1]
    simp
  simp only [sampleEntry, sampleModelEntry, sampleCtxBoth, sampleBeh]
  rw [hnum1, hnum2]
  decide

end Adk
